import Mathlib

/- Verification development for the bmp180sensor JavaScript driver
   (src/bmp180sensor.js, src/lib/i2csensor.js, src/bmp180sensor.constants.js).

   Shallow embedding conventions:
   * JavaScript IEEE-754 numbers are modelled by `JsNum`: an exact rational
     together with the special values Infinity, -Infinity and NaN.  The
     rounding of binary64 arithmetic is not modelled; every quantity checked
     below is either exact in binary64 or separated from the claimed value by
     far more than any accumulated double-rounding error.
   * `Buffer` cells are bytes, modelled as `Fin 256` (Buffer.readUInt8 always
     yields a value in [0,255]).
   * A promise that is fulfilled with `v` is `.resolved v`, one that is
     rejected with `e` is `.rejected e`, and one that never settles is
     `.pending` (see `Outcome`).  A thrown exception inside synchronous code
     is an `Except.error`.
   * Transport (i2c-bus) responses are inputs of the modelled operations:
     `Except JsError β` is the settled result of the underlying (retried)
     bus transaction. -/

namespace Bmp180

/-- Model of a JavaScript number: an exact rational, or one of the IEEE-754
special values Infinity, -Infinity, NaN. -/
inductive JsNum where
  | num : ℚ → JsNum
  | posInf : JsNum
  | negInf : JsNum
  | nan : JsNum
  deriving DecidableEq, Repr

/-- JavaScript `Number.isInteger`: true exactly for finite integral values. -/
def JsNum.isInteger : JsNum → Bool
  | .num a => a.den == 1
  | _ => false

/-- JavaScript unary minus. -/
def JsNum.neg : JsNum → JsNum
  | .num a => .num (-a)
  | .posInf => .negInf
  | .negInf => .posInf
  | .nan => .nan

/-- JavaScript `+` on numbers. -/
def JsNum.add : JsNum → JsNum → JsNum
  | .num a, .num b => .num (a + b)
  | .num _, .posInf => .posInf
  | .num _, .negInf => .negInf
  | .posInf, .num _ => .posInf
  | .negInf, .num _ => .negInf
  | .posInf, .posInf => .posInf
  | .negInf, .negInf => .negInf
  | .posInf, .negInf => .nan
  | .negInf, .posInf => .nan
  | .nan, _ => .nan
  | _, .nan => .nan

/-- JavaScript `-` on numbers, i.e. addition of the negation. -/
def JsNum.sub (a b : JsNum) : JsNum := a.add b.neg

/-- JavaScript `*` on numbers. -/
def JsNum.mul : JsNum → JsNum → JsNum
  | .num a, .num b => .num (a * b)
  | .num a, .posInf => if 0 < a then .posInf else if a < 0 then .negInf else .nan
  | .num a, .negInf => if 0 < a then .negInf else if a < 0 then .posInf else .nan
  | .posInf, .num b => if 0 < b then .posInf else if b < 0 then .negInf else .nan
  | .negInf, .num b => if 0 < b then .negInf else if b < 0 then .posInf else .nan
  | .posInf, .posInf => .posInf
  | .posInf, .negInf => .negInf
  | .negInf, .posInf => .negInf
  | .negInf, .negInf => .posInf
  | .nan, _ => .nan
  | _, .nan => .nan

/-- JavaScript `/` on numbers.  Division of a nonzero finite value by zero
yields a signed infinity, `0 / 0` yields NaN (the sign of zero is not
modelled; the divisors reached in this development are literal `0`, which in
JavaScript is `+0`). -/
def JsNum.div : JsNum → JsNum → JsNum
  | .num a, .num b =>
      if b = 0 then (if 0 < a then .posInf else if a < 0 then .negInf else .nan)
      else .num (a / b)
  | .num _, .posInf => .num 0
  | .num _, .negInf => .num 0
  | .posInf, .num b => if 0 ≤ b then .posInf else .negInf
  | .negInf, .num b => if 0 ≤ b then .negInf else .posInf
  | .posInf, .posInf => .nan
  | .posInf, .negInf => .nan
  | .negInf, .posInf => .nan
  | .negInf, .negInf => .nan
  | .nan, _ => .nan
  | _, .nan => .nan

/-- JavaScript `Math.floor`: floors finite values and fixes the special
values. -/
def JsNum.floor : JsNum → JsNum
  | .num a => .num (⌊a⌋ : ℤ)
  | .posInf => .posInf
  | .negInf => .negInf
  | .nan => .nan

/-- JavaScript `<` on numbers (false whenever an operand is NaN). -/
def JsNum.lt : JsNum → JsNum → Bool
  | .num a, .num b => a < b
  | .num _, .posInf => true
  | .num _, .negInf => false
  | .posInf, .num _ => false
  | .negInf, .num _ => true
  | .posInf, .posInf => false
  | .negInf, .negInf => false
  | .negInf, .posInf => true
  | .posInf, .negInf => false
  | .nan, _ => false
  | _, .nan => false

/-- Embedding of an integer as a JavaScript number. -/
def jint (n : ℤ) : JsNum := .num (n : ℚ)

/-- Errors thrown or rejected by the driver code.  `invalidValue` never
occurs in the source; it exists so that the validation error predicted by the
specification for out-of-range write values is expressible.  `transport n`
stands for an arbitrary error surfaced by the underlying i2c-bus transport
after the retry budget is exhausted. -/
inductive JsError where
  | calibrationInvalid : JsError
  | invalidUncompTemperature : JsError
  | invalidUncompPressure : JsError
  | resultsNotReturned : JsError
  | calibrationNotReturned : JsError
  | invalidCommand : JsError
  | invalidValue : JsError
  | unexpectedChipId : ℕ → JsError
  | transport : ℕ → JsError
  deriving DecidableEq, Repr

/-- The eleven calibration constants stored in `this._calibrationdata`
(bmp180sensor.js, calibrate). -/
structure CalibrationData where
  ac1 : ℤ
  ac2 : ℤ
  ac3 : ℤ
  ac4 : ℤ
  ac5 : ℤ
  ac6 : ℤ
  b1 : ℤ
  b2 : ℤ
  mb : ℤ
  mc : ℤ
  md : ℤ
  deriving DecidableEq, Repr

/-- An oversampling setting record (bmp180sensor.constants.js). -/
structure OversamplingSetting where
  mode : ℕ
  command : ℕ
  delay : ℕ
  deriving DecidableEq, Repr

/-- The `standard` oversampling setting (the constructor default). -/
def standardOversampling : OversamplingSetting := ⟨1, 0x74, 8⟩

/-- The fixed temperature conversion setting. -/
def temperatureOversampling : OversamplingSetting := ⟨255, 0x2e, 8⟩

/-- Bmp180sensor._computeB5 (bmp180sensor.js lines 119-132).  Checks
`isCalibrated`, checks `Number.isInteger(ut)`, then computes
`x1 = Math.floor(((ut - ac6) * ac5) / 2 ** 15)`,
`x2 = (mc * 2 ** 11) / (x1 + md)` (note: the source applies no `Math.floor`
to `x2`), and returns `x1 + x2`. -/
def computeB5 (cal : Option CalibrationData) (ut : JsNum) : Except JsError JsNum :=
  match cal with
  | none => .error .calibrationInvalid
  | some c =>
      if ut.isInteger then
        let x1 := (((ut.sub (jint c.ac6)).mul (jint c.ac5)).div (jint (2 ^ 15))).floor
        let x2 := ((jint c.mc).mul (jint (2 ^ 11))).div (x1.add (jint c.md))
        .ok (x1.add x2)
      else .error .invalidUncompTemperature

/-- Bmp180sensor._convertUncompensatedTemperature (bmp180sensor.js lines
141-148): checks `Number.isInteger(ut)`, computes `b5`, then
`temperature = Math.floor((b5 + 8) / 2 ** 4)` and returns `temperature / 10`. -/
def convertUncompensatedTemperature (cal : Option CalibrationData) (ut : JsNum) :
    Except JsError JsNum :=
  if ut.isInteger then
    match computeB5 cal ut with
    | .error e => .error e
    | .ok b5 =>
        let temperature := ((b5.add (jint 8)).div (jint (2 ^ 4))).floor
        .ok (temperature.div (jint 10))
  else .error .invalidUncompTemperature

/-- Bmp180sensor._convertUncompensatedPressure (bmp180sensor.js lines
158-192), transcribed operation by operation: the two raw-value integer
checks, `b5`, then the pressure compensation chain.  Note that on line 177
the source floors `b1 * ((b6 * b6) / 2 ** 12)` as a whole (the inner division
is not floored), and that neither branch of the `b7 < 0x80000000` division by
`b4` is floored. -/
def convertUncompensatedPressure (cal : Option CalibrationData)
    (oss : OversamplingSetting) (ut up : JsNum) : Except JsError JsNum :=
  if ¬ ut.isInteger then .error .invalidUncompTemperature
  else if ¬ up.isInteger then .error .invalidUncompPressure
  else
    match cal with
    | none => .error .calibrationInvalid
    | some c =>
        match computeB5 (some c) ut with
        | .error e => .error e
        | .ok b5 =>
            let b6 := b5.sub (jint 4000)
            let x1a := (((jint c.b2).mul (((b6.mul b6).div (jint (2 ^ 12))).floor)).div
              (jint (2 ^ 11))).floor
            let x2a := (((jint c.ac2).mul b6).div (jint (2 ^ 11))).floor
            let x3a := x1a.add x2a
            let b3 := (((((jint c.ac1).mul (jint 4)).add x3a).mul (jint (2 ^ oss.mode))
              |>.add (jint 2)).div (jint (2 ^ 2))).floor
            let x1b := (((jint c.ac3).mul b6).div (jint (2 ^ 13))).floor
            let x2b := ((((jint c.b1).mul ((b6.mul b6).div (jint (2 ^ 12)))).floor).div
              (jint (2 ^ 16))).floor
            let x3b := (((x1b.add x2b).add (jint 2)).div (jint (2 ^ 2))).floor
            let b4 := (((jint c.ac4).mul (x3b.add (jint 32768))).div (jint (2 ^ 15))).floor
            let b7 := (up.sub b3).mul (((jint 50000).div (jint (2 ^ oss.mode))).floor)
            let p := if b7.lt (jint 0x80000000) then (b7.mul (jint 2)).div b4
                     else (b7.div b4).mul (jint 2)
            let x1c := ((p.div (jint (2 ^ 8))).floor).mul ((p.div (jint (2 ^ 8))).floor)
            let x1d := ((x1c.mul (jint 3038)).div (jint (2 ^ 16))).floor
            let x2c := (((jint (-7357)).mul p).div (jint (2 ^ 16))).floor
            .ok (p.add (((x1d.add x2c).add (jint 3791)).div (jint (2 ^ 4))).floor)

/-- Byte access `buffer.readUInt8(i)` on a byte list (out-of-range access is
never reached: every use below is guarded by the length check of the source). -/
def byteAt (buf : List (Fin 256)) (i : ℕ) : ℕ :=
  (buf.getD i (0 : Fin 256)).val

/-- Buffer.readUInt16BE: big-endian unsigned 16-bit field at byte offset `i`. -/
def readUInt16BE (buf : List (Fin 256)) (i : ℕ) : ℤ :=
  byteAt buf i * 256 + byteAt buf (i + 1)

/-- Buffer.readInt16BE: big-endian signed (two-complement) 16-bit field at
byte offset `i`. -/
def readInt16BE (buf : List (Fin 256)) (i : ℕ) : ℤ :=
  let u := readUInt16BE buf i
  if 32768 ≤ u then u - 65536 else u

/-- The decoding performed by Bmp180sensor.calibrate (bmp180sensor.js lines
345-357): eleven big-endian 16-bit fields at byte offsets 0,2,...,20, with
`ac4`, `ac5`, `ac6` read unsigned and all other fields read signed. -/
def decodeCalibration (buf : List (Fin 256)) : CalibrationData where
  ac1 := readInt16BE buf 0
  ac2 := readInt16BE buf 2
  ac3 := readInt16BE buf 4
  ac4 := readUInt16BE buf 6
  ac5 := readUInt16BE buf 8
  ac6 := readUInt16BE buf 10
  b1 := readInt16BE buf 12
  b2 := readInt16BE buf 14
  mb := readInt16BE buf 16
  mc := readInt16BE buf 18
  md := readInt16BE buf 20

/-- Result part of Bmp180sensor.calibrate: the transport response either is a
surfaced transport error, or is a byte block that is rejected when shorter
than 22 bytes and decoded otherwise. -/
def calibrateResult (resp : Except JsError (List (Fin 256))) :
    Except JsError CalibrationData :=
  match resp with
  | .error e => .error e
  | .ok buf =>
      if buf.length < 22 then .error .calibrationNotReturned
      else .ok (decodeCalibration buf)

/-- Parsing part of Bmp180sensor._getUncompensatedTemperature (bmp180sensor.js
lines 242-252): reject a response shorter than 2 bytes, otherwise compose
`MSB * 2 ** 8 + LSB`. -/
def parseTemperatureResponse (buf : List (Fin 256)) : Except JsError JsNum :=
  if buf.length < 2 then .error .resultsNotReturned
  else .ok (jint (byteAt buf 0 * 2 ^ 8 + byteAt buf 1))

/-- Bmp180sensor._getUncompensatedTemperature as a function of the settled
transport response for the 2-byte result-register read. -/
def getUncompensatedTemperature (resp : Except JsError (List (Fin 256))) :
    Except JsError JsNum :=
  match resp with
  | .error e => .error e
  | .ok buf => parseTemperatureResponse buf

/-- Parsing part of Bmp180sensor._getUncompensatedPressure (bmp180sensor.js
lines 210-222): reject a response shorter than 3 bytes, otherwise
`Math.floor((MSB * 2 ** 16 + LSB * 2 ** 8 + XLSB) / 2 ** (8 - mode))`. -/
def parsePressureResponse (oss : OversamplingSetting) (buf : List (Fin 256)) :
    Except JsError JsNum :=
  if buf.length < 3 then .error .resultsNotReturned
  else .ok ((jint (byteAt buf 0 * 2 ^ 16 + byteAt buf 1 * 2 ^ 8 + byteAt buf 2)
    |>.div (jint (2 ^ (8 - oss.mode)))).floor)

/-- Bmp180sensor._getUncompensatedPressure as a function of the settled
transport response for the 3-byte result-register read. -/
def getUncompensatedPressure (oss : OversamplingSetting)
    (resp : Except JsError (List (Fin 256))) : Except JsError JsNum :=
  match resp with
  | .error e => .error e
  | .ok buf => parsePressureResponse oss buf

/-- How a promise returned to the caller can behave: fulfil with a value,
reject with an error, or never settle. -/
inductive Outcome (α : Type) where
  | resolved : α → Outcome α
  | rejected : JsError → Outcome α
  | pending : Outcome α
  deriving DecidableEq, Repr

/-- Bmp180sensor.temperature (bmp180sensor.js lines 410-423).  The executor
attaches only a fulfilment handler to the acquisition promise
(`this._getUncompensatedTemperature().then((ut) => ...)`): when acquisition
rejects, neither `resolve` nor `reject` is ever called, so the returned
promise never settles.  When acquisition fulfils, the conversion runs in a
try/catch that resolves with the value or rejects with the thrown error. -/
def temperatureOp (cal : Option CalibrationData)
    (tempResp : Except JsError (List (Fin 256))) : Outcome JsNum :=
  match getUncompensatedTemperature tempResp with
  | .error _ => .pending
  | .ok ut =>
      match convertUncompensatedTemperature cal ut with
      | .ok v => .resolved v
      | .error e => .rejected e

/-- Bmp180sensor.pressure (bmp180sensor.js lines 432-447).  Temperature is
sampled first, then pressure; each `.then` lacks a rejection handler, so a
rejection of either acquisition leaves the returned promise pending.  The
conversion runs in a try/catch as in `temperatureOp`. -/
def pressureOp (cal : Option CalibrationData) (oss : OversamplingSetting)
    (tempResp pressResp : Except JsError (List (Fin 256))) : Outcome JsNum :=
  match getUncompensatedTemperature tempResp with
  | .error _ => .pending
  | .ok ut =>
      match getUncompensatedPressure oss pressResp with
      | .error _ => .pending
      | .ok up =>
          match convertUncompensatedPressure cal oss ut up with
          | .ok v => .resolved v
          | .error e => .rejected e

/-- I2csensor._validatedCommand (i2csensor.js lines 146-151): a
command/register must be an integer in [0, 0xFF]. -/
def validatedCommand (command : ℤ) : Except JsError ℤ :=
  if 0 ≤ command ∧ command ≤ 0xff then .ok command else .error .invalidCommand

/-- I2csensor._writeI2cByte (i2csensor.js lines 198-208): validates the
command, then issues the (retried) transport write with the value exactly as
supplied.  A returned `.ok (cmd, value)` means the transport transaction
`writeByte(address, cmd, value)` is issued; the source contains no check of
`value` at all. -/
def writeI2cByte (command value : ℤ) : Except JsError (ℤ × ℤ) :=
  match validatedCommand command with
  | .error e => .error e
  | .ok cmd => .ok (cmd, value)

/-- Bmp180sensor.isValidChipId (bmp180sensor.js lines 301-311) as a function
of the settled chip-id register read: succeeds only on byte 0x55. -/
def isValidChipIdStep (resp : Except JsError ℕ) : Except JsError Bool :=
  match resp with
  | .error e => .error e
  | .ok b => if b = 0x55 then .ok true else .error (.unexpectedChipId b)

/-- Bmp180sensor.softreset (bmp180sensor.js lines 320-325) as a function of
the settled reset-register write: resolves true when the write succeeded. -/
def softresetStep (resp : Except JsError Unit) : Except JsError Bool :=
  match resp with
  | .error e => .error e
  | .ok _ => .ok true

/-- The mutable driver state relevant to the claims: `this._calibrationdata`,
`this._initialized` and `this._opts.oss`. -/
structure DriverState where
  calibrationdata : Option CalibrationData
  initialized : Bool
  oss : OversamplingSetting
  deriving DecidableEq, Repr

/-- Bmp180sensor.isCalibrated (bmp180sensor.js lines 261-263):
`!_.isNil(this._calibrationdata)`. -/
def isCalibrated (st : DriverState) : Bool :=
  st.calibrationdata.isSome

/-- Bmp180sensor.calibrate (bmp180sensor.js lines 335-363) as a state
transition: on success the whole snapshot is replaced by the freshly decoded
record in a single assignment; on any failure the state is untouched. -/
def calibrateStep (resp : Except JsError (List (Fin 256))) (st : DriverState) :
    DriverState × Except JsError Bool :=
  match calibrateResult resp with
  | .error e => (st, .error e)
  | .ok cd => ({ st with calibrationdata := some cd }, .ok true)

/-- Which of the three bring-up steps were actually performed (i.e. issued
their bus transactions) during an initialize() call. -/
structure InitTrace where
  ranChipId : Bool
  ranReset : Bool
  ranCalibrate : Bool
  deriving DecidableEq, Repr

/-- Bmp180sensor.initialize (bmp180sensor.js lines 375-389): sets
`this._initialized = false`, then chains isValidChipId, softreset and
calibrate; the first rejection short-circuits the chain and becomes the
result, and only after all three succeed is `this._initialized = true` set
and `true` returned. -/
def runInitialize (chip : Except JsError ℕ) (reset : Except JsError Unit)
    (calResp : Except JsError (List (Fin 256))) (st : DriverState) :
    DriverState × InitTrace × Except JsError Bool :=
  let st0 := { st with initialized := false }
  match isValidChipIdStep chip with
  | .error e => (st0, ⟨true, false, false⟩, .error e)
  | .ok _ =>
      match softresetStep reset with
      | .error e => (st0, ⟨true, true, false⟩, .error e)
      | .ok _ =>
          match calibrateStep calResp st0 with
          | (st1, .error e) => (st1, ⟨true, true, true⟩, .error e)
          | (st1, .ok _) => ({ st1 with initialized := true }, ⟨true, true, true⟩, .ok true)

/-- One public operation of the driver together with the settled transport
responses it consumes.  These are all the operations of Bmp180sensor (plus
the oversampling setter); only calibrate and initialize ever assign
`this._calibrationdata`. -/
inductive Op where
  | opCalibrate : Except JsError (List (Fin 256)) → Op
  | opInitialize : Except JsError ℕ → Except JsError Unit →
      Except JsError (List (Fin 256)) → Op
  | opSoftreset : Except JsError Unit → Op
  | opChipId : Except JsError ℕ → Op
  | opSetOss : OversamplingSetting → Op
  | opTemperature : Except JsError (List (Fin 256)) → Op
  | opPressure : Except JsError (List (Fin 256)) →
      Except JsError (List (Fin 256)) → Op
  | opClose : Op

/-- Effect of each public operation on the driver state.  isValidChipId,
softreset, temperature, pressure and close read but never assign
`this._calibrationdata`, `this._initialized` or `this._opts.oss`; the oss
setter assigns only `this._opts.oss`. -/
def stepOp : Op → DriverState → DriverState
  | .opCalibrate resp, st => (calibrateStep resp st).1
  | .opInitialize chip reset calResp, st => (runInitialize chip reset calResp st).1
  | .opSoftreset _, st => st
  | .opChipId _, st => st
  | .opSetOss o, st => { st with oss := o }
  | .opTemperature _, st => st
  | .opPressure _ _, st => st
  | .opClose, st => st

/-- Reference fixed-point formula for B5 as the specification states it:
`X1 = floor((ut - ac6) * ac5 / 2^15)`, `X2 = floor(mc * 2^11 / (X1 + md))`,
both divisions rounding toward negative infinity, `B5 = X1 + X2`. -/
def specB5 (c : CalibrationData) (ut : ℤ) : ℤ :=
  let x1 := Int.fdiv ((ut - c.ac6) * c.ac5) (2 ^ 15)
  let x2 := Int.fdiv (c.mc * 2 ^ 11) (x1 + c.md)
  x1 + x2

instance {ε α : Type} [DecidableEq ε] [DecidableEq α] : DecidableEq (Except ε α) := fun a b =>
  match a, b with
  | .ok x, .ok y => decidable_of_iff (x = y) (by simp)
  | .error x, .error y => decidable_of_iff (x = y) (by simp)
  | .ok _, .error _ => .isFalse (by simp)
  | .error _, .ok _ => .isFalse (by simp)

/-- The 22 calibration bytes of the worked example in the specification
(section 8). -/
def calBytes : List (Fin 256) :=
  [0x23, 0x29, 0xFF, 0xC2, 0xFC, 0xD5, 0x7F, 0x17, 0x66, 0xA1, 0x80, 0x00,
   0x00, 0x16, 0x00, 0x2C, 0xB4, 0x22, 0x17, 0xC1, 0x00, 0x14]

/-- The eleven calibration values the specification claims for `calBytes` and
uses in its worked temperature and pressure examples. -/
def calSection8 : CalibrationData :=
  ⟨9035, -60, -832, 32741, 26171, -32768, 22, 44, -19418, 6099, 20⟩

/-- The eleven values the calibrate() decoding actually produces on
`calBytes`. -/
def calDecoded : CalibrationData :=
  ⟨9001, -62, -811, 32535, 26273, 32768, 22, 44, -19422, 6081, 20⟩

/-- A calibration record exercising the unfloored second division of
_computeB5: with ac6 = 0 and ac5 = 32768, x1 equals the raw temperature, and
mc = 1, md = 0 make x2 equal 2048 / x1. -/
def calMissingFloor : CalibrationData := ⟨0, 0, 0, 0, 32768, 0, 0, 0, 0, 1, 0⟩

/-- A degenerate calibration record for which the B5 divisor x1 + md equals 0
at raw temperature 0. -/
def calZeroDivisor : CalibrationData := ⟨0, 0, 0, 0, 32768, 0, 0, 0, 0, 6099, 0⟩

/-- Claim C1 (code bug).  The claim states that _computeB5 returns X1 + X2
with both divisions floored.  The source floors x1 but not x2, so at the
calibration record `calMissingFloor` and integer raw temperature 3 the code
returns the non-integer 2057/3 = 3 + 2048/3, while the reference formula of
the claim returns the integer 685 = 3 + 682. -/
theorem computeB5_second_division_not_floored :
    computeB5 (some calMissingFloor) (jint 3) = .ok (.num (2057 / 3)) ∧
    specB5 calMissingFloor 3 = 685 ∧
    (JsNum.num (2057 / 3)).isInteger = false ∧ ((2057 : ℚ) / 3 ≠ (685 : ℚ)) := by
  refine ⟨?_, ?_, ?_, ?_⟩
  · norm_num [computeB5, calMissingFloor, JsNum.isInteger, jint, JsNum.sub, JsNum.neg,
      JsNum.add, JsNum.mul, JsNum.div, JsNum.floor]
  · norm_num [specB5, calMissingFloor, Int.fdiv]
  · norm_num [JsNum.isInteger]
  · norm_num

/-- Claim C2 (counterexample).  With the calibration constants the claim
supplies (ac6 = -32768, ac5 = 26171, mc = 6099, md = 20) and raw temperature
27898, _computeB5 does not return 2399 and the temperature conversion does
not return 15. -/
theorem temperature_example_values_differ :
    computeB5 (some calSection8) (jint 27898) ≠ .ok (jint 2399) ∧
    convertUncompensatedTemperature (some calSection8) (jint 27898) ≠ .ok (.num 15) := by
  constructor
  · norm_num [computeB5, calSection8, JsNum.isInteger, jint, JsNum.sub, JsNum.neg,
      JsNum.add, JsNum.mul, JsNum.div, JsNum.floor]
  · norm_num [convertUncompensatedTemperature, computeB5, calSection8, JsNum.isInteger, jint,
      JsNum.sub, JsNum.neg, JsNum.add, JsNum.mul, JsNum.div, JsNum.floor]

/-- Claim C2 (amended).  With the constants supplied by the claim and raw
temperature 27898, _computeB5 returns 295132012/6059 = 48452 + 12490752/48472
(about 48709.69) and the temperature conversion returns 1522/5 = 304.4
degrees Celsius. -/
theorem temperature_example_actual_values :
    computeB5 (some calSection8) (jint 27898) = .ok (.num (295132012 / 6059)) ∧
    convertUncompensatedTemperature (some calSection8) (jint 27898) = .ok (.num (1522 / 5)) := by
  constructor
  · norm_num [computeB5, calSection8, JsNum.isInteger, jint, JsNum.sub, JsNum.neg,
      JsNum.add, JsNum.mul, JsNum.div, JsNum.floor]
  · norm_num [convertUncompensatedTemperature, computeB5, calSection8, JsNum.isInteger, jint,
      JsNum.sub, JsNum.neg, JsNum.add, JsNum.mul, JsNum.div, JsNum.floor]

/-- Claim C3 (code bug).  The claim states that a zero B5 divisor makes the
conversion fail with a DivisionByZero error.  The source contains no such
guard: at the record `calZeroDivisor` and raw temperature 0 the divisor
x1 + md is 0, division yields Infinity, and both _computeB5 and the
temperature conversion resolve successfully with Infinity instead of
failing. -/
theorem zero_divisor_produces_infinity :
    computeB5 (some calZeroDivisor) (jint 0) = .ok .posInf ∧
    convertUncompensatedTemperature (some calZeroDivisor) (jint 0) = .ok .posInf := by
  constructor
  · norm_num [computeB5, calZeroDivisor, JsNum.isInteger, jint, JsNum.sub, JsNum.neg,
      JsNum.add, JsNum.mul, JsNum.div, JsNum.floor]
  · norm_num [convertUncompensatedTemperature, computeB5, calZeroDivisor, JsNum.isInteger, jint,
      JsNum.sub, JsNum.neg, JsNum.add, JsNum.mul, JsNum.div, JsNum.floor]

/-- Claim C4 (counterexample).  The 22-byte block of the claim does not
decode to the eleven values the claim lists (they disagree on ac1, ac2, ac3,
ac4, ac5, ac6, mb and mc). -/
theorem calibration_decode_values_differ : decodeCalibration calBytes ≠ calSection8 := by
  decide

/-- Claim C4 (amended).  The 22-byte block decodes, with ac4, ac5, ac6
unsigned and the other eight fields signed at byte offsets 0,2,...,20, to
ac1 = 9001, ac2 = -62, ac3 = -811, ac4 = 32535, ac5 = 26273, ac6 = 32768,
b1 = 22, b2 = 44, mb = -19422, mc = 6081, md = 20. -/
theorem calibration_decode_actual_values :
    calBytes.length = 22 ∧
    decodeCalibration calBytes = calDecoded ∧
    calibrateResult (.ok calBytes) = .ok calDecoded := by
  decide

/-- Claim C5 (counterexample).  With the section-8 constants of the claim,
standard oversampling (mode 1), raw temperature 27898 and raw pressure
23843, the pressure conversion returns 66357281/31647 (about 2096.9), which
is not within 1 Pa of 69964. -/
theorem pressure_example_not_within_tolerance :
    convertUncompensatedPressure (some calSection8) standardOversampling (jint 27898)
      (jint 23843) = .ok (.num (66357281 / 31647)) ∧
    (1 : ℚ) < |66357281 / 31647 - 69964| := by
  constructor
  · norm_num [convertUncompensatedPressure, computeB5, calSection8, standardOversampling,
      JsNum.isInteger, jint, JsNum.sub, JsNum.neg, JsNum.add, JsNum.mul, JsNum.div,
      JsNum.floor, JsNum.lt]
  · exact lt_abs.mpr (Or.inr (by norm_num))

/-- Claim C5 (amended).  With the section-8 constants of the claim, standard
oversampling, raw temperature 27898 and raw pressure 23843, the pressure
conversion returns exactly 66357281/31647, about 2096.9 Pa. -/
theorem pressure_example_actual_value :
    convertUncompensatedPressure (some calSection8) standardOversampling (jint 27898)
      (jint 23843) = .ok (.num (66357281 / 31647)) := by
  norm_num [convertUncompensatedPressure, computeB5, calSection8, standardOversampling,
    JsNum.isInteger, jint, JsNum.sub, JsNum.neg, JsNum.add, JsNum.mul, JsNum.div,
    JsNum.floor, JsNum.lt]

/-- Claim C6 (code bug).  The claim states that temperature() and pressure()
propagate failures of the raw-sample acquisitions to the caller.  The source
attaches no rejection handler to the acquisition promises, so when an
acquisition rejects the promise returned to the caller never settles: it
stays pending instead of settling with the error. -/
theorem acquisition_failure_promise_pending (e : JsError) (cal : Option CalibrationData)
    (oss : OversamplingSetting) (pResp : Except JsError (List (Fin 256))) :
    temperatureOp cal (.error e) = .pending ∧
    pressureOp cal oss (.error e) pResp = .pending ∧
    pressureOp cal oss (.ok [0x6C, 0xFA]) (.error e) = .pending := by
  refine ⟨rfl, rfl, ?_⟩
  simp [pressureOp, getUncompensatedTemperature, parseTemperatureResponse,
    getUncompensatedPressure]

/-- Witness for claim C6: concrete instances of the pending outcomes. -/
theorem acquisition_failure_promise_pending_witness :
    temperatureOp none (.error (.transport 0)) = .pending ∧
    pressureOp none standardOversampling (.error (.transport 0)) (.ok []) = .pending ∧
    pressureOp none standardOversampling (.ok [0x6C, 0xFA]) (.error (.transport 0)) =
      .pending :=
  acquisition_failure_promise_pending (.transport 0) none standardOversampling (.ok [])

/-- Claim C7 (counterexample).  The claim states that a value outside 0-255
makes the byte-write operation fail with InvalidValue before any transport
call.  The source validates only the register: with value 256 the operation
issues the transport write (0xe0, 256) and raises no error. -/
theorem write_value_out_of_range_not_rejected :
    writeI2cByte 0xe0 256 = .ok (0xe0, 256) := by
  decide

/-- Claim C7 (amended).  The byte-write operation performs no validation of
the value: whenever the register is in range, the transport write is issued
with the value exactly as supplied, whether or not it is a byte, and no
InvalidValue error exists in the source. -/
theorem write_value_forwarded_unvalidated (command value : ℤ) (h1 : 0 ≤ command)
    (h2 : command ≤ 0xff) :
    writeI2cByte command value = .ok (command, value) := by
  simp [writeI2cByte, validatedCommand, h1, h2]

/-- Witness for claim C7: register 0xe0 with the out-of-range value 300. -/
theorem write_value_forwarded_unvalidated_witness :
    writeI2cByte 0xe0 300 = .ok (0xe0, 300) :=
  write_value_forwarded_unvalidated 0xe0 300 (by norm_num) (by norm_num)

/-- Claim C8 (confirmed).  initialize() runs chip-id check, soft reset and
calibrate in strict order; the first failing step short-circuits the chain,
its error becomes the settled result and the later steps are not performed;
the initialized flag is reset to false at the start of every invocation and
ends true exactly when all three steps succeed (which is also exactly when
the call resolves with true). -/
theorem initialize_strict_sequence (chip : Except JsError ℕ) (reset : Except JsError Unit)
    (calResp : Except JsError (List (Fin 256))) (st : DriverState) :
    ((runInitialize chip reset calResp st).1.initialized = true ↔
      ((∃ b, isValidChipIdStep chip = .ok b) ∧ (∃ b, softresetStep reset = .ok b) ∧
        ∃ cd, calibrateResult calResp = .ok cd)) ∧
    ((runInitialize chip reset calResp st).2.2 = .ok true ↔
      (runInitialize chip reset calResp st).1.initialized = true) ∧
    (∀ e, isValidChipIdStep chip = .error e →
      runInitialize chip reset calResp st =
        ({ st with initialized := false }, ⟨true, false, false⟩, .error e)) ∧
    (∀ e b, isValidChipIdStep chip = .ok b → softresetStep reset = .error e →
      runInitialize chip reset calResp st =
        ({ st with initialized := false }, ⟨true, true, false⟩, .error e)) ∧
    (∀ e b c, isValidChipIdStep chip = .ok b → softresetStep reset = .ok c →
      calibrateResult calResp = .error e →
      runInitialize chip reset calResp st =
        ({ st with initialized := false }, ⟨true, true, true⟩, .error e)) := by
  cases hc : isValidChipIdStep chip <;>
    cases hr : softresetStep reset <;>
      cases hk : calibrateResult calResp <;>
        simp [runInitialize, calibrateStep, hc, hr, hk]

/-- Witness for claim C8: a failing chip-id check on a previously initialized
state aborts before reset and calibrate, surfaces UnexpectedChipId, and
leaves the initialized flag false. -/
theorem initialize_strict_sequence_witness :
    runInitialize (.ok 0x54) (.ok ()) (.error (.transport 0))
        ⟨none, true, standardOversampling⟩ =
      (⟨none, false, standardOversampling⟩, ⟨true, false, false⟩,
        .error (.unexpectedChipId 0x54)) := by
  have h := initialize_strict_sequence (.ok 0x54) (.ok ()) (.error (.transport 0))
    ⟨none, true, standardOversampling⟩
  exact h.2.2.1 (.unexpectedChipId 0x54) rfl

/-- Claim C9 (confirmed).  Once the driver is calibrated it stays calibrated:
no operation removes the snapshot, and across every public operation the
snapshot is either left untouched or replaced wholesale by the decoding of a
fresh 22-byte response (never mutated field by field, so a partial snapshot
is never observable). -/
theorem calibration_snapshot_persistent (op : Op) (st : DriverState)
    (h : isCalibrated st = true) :
    isCalibrated (stepOp op st) = true ∧
    ((stepOp op st).calibrationdata = st.calibrationdata ∨
      ∃ buf : List (Fin 256), (stepOp op st).calibrationdata = some (decodeCalibration buf)) := by
  cases op with
  | opCalibrate resp =>
      rcases resp with e | buf
      · exact ⟨by simpa [stepOp, calibrateStep, calibrateResult, isCalibrated] using h,
          Or.inl (by simp [stepOp, calibrateStep, calibrateResult])⟩
      · by_cases hl : buf.length < 22
        · exact ⟨by simpa [stepOp, calibrateStep, calibrateResult, hl, isCalibrated] using h,
            Or.inl (by simp [stepOp, calibrateStep, calibrateResult, hl])⟩
        · exact ⟨by simp [stepOp, calibrateStep, calibrateResult, hl, isCalibrated],
            Or.inr ⟨buf, by simp [stepOp, calibrateStep, calibrateResult, hl]⟩⟩
  | opInitialize chip reset calResp =>
      cases hc : isValidChipIdStep chip with
      | error e =>
          exact ⟨by simpa [stepOp, runInitialize, hc, isCalibrated] using h,
            Or.inl (by simp [stepOp, runInitialize, hc])⟩
      | ok b =>
          cases hr : softresetStep reset with
          | error e =>
              exact ⟨by simpa [stepOp, runInitialize, hc, hr, isCalibrated] using h,
                Or.inl (by simp [stepOp, runInitialize, hc, hr])⟩
          | ok c =>
              rcases calResp with e | buf
              · exact ⟨by simpa [stepOp, runInitialize, hc, hr, calibrateStep,
                    calibrateResult, isCalibrated] using h,
                  Or.inl (by simp [stepOp, runInitialize, hc, hr, calibrateStep,
                    calibrateResult])⟩
              · by_cases hl : buf.length < 22
                · exact ⟨by simpa [stepOp, runInitialize, hc, hr, calibrateStep,
                      calibrateResult, hl, isCalibrated] using h,
                    Or.inl (by simp [stepOp, runInitialize, hc, hr, calibrateStep,
                      calibrateResult, hl])⟩
                · exact ⟨by simp [stepOp, runInitialize, hc, hr, calibrateStep,
                      calibrateResult, hl, isCalibrated],
                    Or.inr ⟨buf, by simp [stepOp, runInitialize, hc, hr, calibrateStep,
                      calibrateResult, hl]⟩⟩
  | opSoftreset r => exact ⟨h, Or.inl rfl⟩
  | opChipId r => exact ⟨h, Or.inl rfl⟩
  | opSetOss o => exact ⟨h, Or.inl rfl⟩
  | opTemperature r => exact ⟨h, Or.inl rfl⟩
  | opPressure r s => exact ⟨h, Or.inl rfl⟩
  | opClose => exact ⟨h, Or.inl rfl⟩

/-- Witness for claim C9: a successful re-calibration on an already
calibrated state keeps the driver calibrated and replaces the snapshot
wholesale. -/
theorem calibration_snapshot_persistent_witness :
    isCalibrated (stepOp (.opCalibrate (.ok calBytes))
        ⟨some calSection8, true, standardOversampling⟩) = true ∧
    ((stepOp (.opCalibrate (.ok calBytes))
          ⟨some calSection8, true, standardOversampling⟩).calibrationdata =
        (⟨some calSection8, true, standardOversampling⟩ : DriverState).calibrationdata ∨
      ∃ buf : List (Fin 256),
        (stepOp (.opCalibrate (.ok calBytes))
            ⟨some calSection8, true, standardOversampling⟩).calibrationdata =
          some (decodeCalibration buf)) :=
  calibration_snapshot_persistent (.opCalibrate (.ok calBytes))
    ⟨some calSection8, true, standardOversampling⟩ rfl

/-- Helper: on a calibrated driver, the temperature conversion of an integer
raw value always succeeds (its only error branches are the uncalibrated check
and the two integer checks). -/
theorem convert_never_invalid_on_int (c : CalibrationData) (n : ℤ) :
    ∃ v, convertUncompensatedTemperature (some c) (jint n) = .ok v := by
  simp [convertUncompensatedTemperature, computeB5, JsNum.isInteger, jint]

/-- Claim C10 (confirmed).  Every raw temperature the acquisition can hand to
the conversion is MSB * 256 + LSB built from two bytes, hence an integer in
[0, 65535]; reached through temperature() on a calibrated driver, the
non-integer-input error branch of the conversion is therefore unreachable. -/
theorem raw_temperature_integer_in_range (resp : Except JsError (List (Fin 256)))
    (c : CalibrationData) :
    (∀ v, getUncompensatedTemperature resp = .ok v →
      ∃ n : ℤ, v = jint n ∧ 0 ≤ n ∧ n ≤ 65535) ∧
    temperatureOp (some c) resp ≠ .rejected .invalidUncompTemperature := by
  rcases resp with e | buf
  · exact ⟨fun v hv => by simp [getUncompensatedTemperature] at hv,
      by simp [temperatureOp, getUncompensatedTemperature]⟩
  · by_cases hl : buf.length < 2
    · constructor
      · intro v hv
        simp [getUncompensatedTemperature, parseTemperatureResponse, hl] at hv
      · simp [temperatureOp, getUncompensatedTemperature, parseTemperatureResponse, hl]
    · constructor
      · intro v hv
        have hv2 : v = jint ((byteAt buf 0 * 2 ^ 8 + byteAt buf 1 : ℕ) : ℤ) := by
          simp [getUncompensatedTemperature, parseTemperatureResponse, hl] at hv
          exact hv.symm
        refine ⟨((byteAt buf 0 * 2 ^ 8 + byteAt buf 1 : ℕ) : ℤ), hv2, by positivity, ?_⟩
        have hb0 : byteAt buf 0 < 256 := (buf.getD 0 (0 : Fin 256)).isLt
        have hb1 : byteAt buf 1 < 256 := (buf.getD 1 (0 : Fin 256)).isLt
        have hn : byteAt buf 0 * 2 ^ 8 + byteAt buf 1 ≤ 65535 := by
          have h256 : (2 : ℕ) ^ 8 = 256 := by norm_num
          rw [h256]
          omega
        exact_mod_cast hn
      · have hacq : getUncompensatedTemperature (.ok buf) =
            .ok (jint ((byteAt buf 0 * 2 ^ 8 + byteAt buf 1 : ℕ) : ℤ)) := by
          simp [getUncompensatedTemperature, parseTemperatureResponse, hl]
        obtain ⟨v, hv⟩ := convert_never_invalid_on_int c
          ((byteAt buf 0 * 2 ^ 8 + byteAt buf 1 : ℕ) : ℤ)
        simp only [temperatureOp, hacq, hv]
        simp

/-- Witness for claim C10: the two-byte response 0x6C 0xFA parses to the raw
temperature 27898, which is an integer in range and converts without hitting
the non-integer branch. -/
theorem raw_temperature_integer_in_range_witness :
    (∃ n : ℤ, jint 27898 = jint n ∧ 0 ≤ n ∧ n ≤ 65535) ∧
    temperatureOp (some calDecoded) (.ok [0x6C, 0xFA]) ≠
      .rejected .invalidUncompTemperature := by
  have h := raw_temperature_integer_in_range (.ok [0x6C, 0xFA]) calDecoded
  exact ⟨h.1 (jint 27898) rfl, h.2⟩

end Bmp180
